import Mathlib

/-
Verification of the QA quality-gate evaluation and template-promotion pipeline.

The pipeline consists of four command-line entry points:
  * evaluate_qa_quality_gates : scores security / compliance / quality /
    performance report files against fixed thresholds and derives an
    overall PASSED or FAILED status;
  * check_qa_gate_status : re-reads a persisted evaluation file and exits
    0 only when its overall status is PASSED;
  * create_qa_promotion_report : builds a promotion-decision record;
  * promote_to_testing : conditionally copies template files from the QA
    tree to the Testing tree.

Each script reads JSON report files from disk.  The embedding replaces the
file system by explicit input values: a report file is either absent,
present but malformed (open or parse raises), or parsed into the fields the
script actually reads.  Numeric JSON values are modelled as rationals,
matching Python int and float arithmetic on the values involved.
-/

namespace QAGates

/-- Outcome of attempting to open and parse an optional JSON report file:
the file may be absent, present but unreadable (any exception while
loading or extracting data), or successfully processed into data. -/
inductive ReportFile (α : Type) where
  | absent
  | malformed
  | parsed (data : α)
deriving DecidableEq

/- ----------------------------------------------------------------
   Quality-gate thresholds (the quality_gates dict of
   QAQualityGateEvaluator.__init__, evaluate_qa_quality_gates.py 16-23).
   ---------------------------------------------------------------- -/

def security_score_threshold : ℚ := 90
def compliance_pass_rate_gate : ℚ := 100
def code_quality_score_gate : ℚ := 85
def vulnerability_count_limit : ℕ := 0
def test_coverage_minimum : ℚ := 80

/- ----------------------------------------------------------------
   Security evaluator (evaluate_security_results, lines 33-87).
   ---------------------------------------------------------------- -/

/-- Data read from bandit-report.json: the issue_severity field of each
entry of the results list (none when the field is missing). -/
structure BanditData where
  results : List (Option String)
deriving DecidableEq

/-- Data read from safety-report.json: some n when the top-level JSON
value is a list of n entries, none when it is not a list (the code then
counts 0 vulnerabilities). -/
abbrev SafetyData := Option ℕ

/-- Data read from semgrep-report.json: the extra.severity field of each
entry of the results list (none when the field is missing). -/
structure SemgrepData where
  results : List (Option String)
deriving DecidableEq

structure SecurityInput where
  bandit : ReportFile BanditData
  safety : ReportFile SafetyData
  semgrep : ReportFile SemgrepData
deriving DecidableEq

/-- Number of result entries whose severity field equals the given tag. -/
def countSeverity (sev : String) (results : List (Option String)) : ℕ :=
  (results.filter (fun r => r == some sev)).length

/-- Score term contributed by the Bandit report (lines 40-50): absent
files contribute nothing, a parse failure contributes the partial score
50, and a parsed report contributes max(0, 100 - 20*high - 10*medium). -/
def banditScoreTerm : ReportFile BanditData → ℚ
  | .absent => 0
  | .malformed => 50
  | .parsed d =>
      max 0 (100 - (countSeverity "HIGH" d.results : ℚ) * 20
               - (countSeverity "MEDIUM" d.results : ℚ) * 10)

/-- Vulnerabilities counted from the Bandit report (line 46); only a
successfully parsed report adds to the count. -/
def banditVulns : ReportFile BanditData → ℕ
  | .parsed d => countSeverity "HIGH" d.results + countSeverity "MEDIUM" d.results
  | _ => 0

/-- Score term contributed by the Safety report (lines 54-63). -/
def safetyScoreTerm : ReportFile SafetyData → ℚ
  | .absent => 0
  | .malformed => 50
  | .parsed d => max 0 (100 - (d.getD 0 : ℚ) * 15)

/-- Vulnerabilities counted from the Safety report (line 59). -/
def safetyVulns : ReportFile SafetyData → ℕ
  | .parsed d => d.getD 0
  | _ => 0

/-- Score term contributed by the Semgrep report (lines 67-77). -/
def semgrepScoreTerm : ReportFile SemgrepData → ℚ
  | .absent => 0
  | .malformed => 50
  | .parsed d => max 0 (100 - (countSeverity "ERROR" d.results : ℚ) * 25)

/-- Vulnerabilities counted from the Semgrep report (line 73). -/
def semgrepVulns : ReportFile SemgrepData → ℕ
  | .parsed d => countSeverity "ERROR" d.results
  | _ => 0

/-- The accumulated security_score just before the division at line 80:
the sum of the three per-tool score terms. -/
def securityScoreSum (i : SecurityInput) : ℚ :=
  banditScoreTerm i.bandit + safetyScoreTerm i.safety + semgrepScoreTerm i.semgrep

/-- Record returned by evaluate_security_results (lines 82-87). -/
structure SecurityRecord where
  security_score : ℚ
  vulnerability_count : ℕ
  passed : Bool
deriving DecidableEq

/-- evaluate_security_results (lines 33-87): accumulate per-tool score
terms and vulnerability counts, average as score/3 when the accumulated
score is positive and 0 otherwise, and pass iff the average meets the
threshold and the vulnerability count is within the limit. -/
def evaluate_security_results (i : SecurityInput) : SecurityRecord :=
  let security_score := securityScoreSum i
  let vulnerability_count := banditVulns i.bandit + safetyVulns i.safety + semgrepVulns i.semgrep
  let avg_security_score := if security_score > 0 then security_score / 3 else 0
  { security_score := avg_security_score
    vulnerability_count := vulnerability_count
    passed := decide (avg_security_score ≥ security_score_threshold) &&
              decide (vulnerability_count ≤ vulnerability_count_limit) }

/- ----------------------------------------------------------------
   Compliance evaluator (evaluate_compliance_results, lines 89-115).
   ---------------------------------------------------------------- -/

/-- Data read from one compliance check file: its status field and its
compliant field (the code defaults compliant to False when missing). -/
structure ComplianceData where
  status : Option String
  compliant : Bool
deriving DecidableEq

/-- The four named compliance check files, in the order the code lists
them: gdpr, hipaa, soc2, iso27001. -/
structure ComplianceInput where
  gdpr : ReportFile ComplianceData
  hipaa : ReportFile ComplianceData
  soc2 : ReportFile ComplianceData
  iso27001 : ReportFile ComplianceData
deriving DecidableEq

/-- A compliance check counts as passed when its file exists, parses, and
reports status PASSED or compliant true (line 101). -/
def complianceCheckPassed : ReportFile ComplianceData → Bool
  | .parsed d => d.status == some "PASSED" || d.compliant
  | _ => false

/-- Record returned by evaluate_compliance_results (lines 110-115). -/
structure ComplianceRecord where
  compliance_pass_rate : ℚ
  passed_checks : ℕ
  total_checks : ℕ
  passed : Bool
deriving DecidableEq

/-- evaluate_compliance_results (lines 89-115): count passing checks among
the four fixed files, compute the pass rate as a percentage, and pass iff
the rate meets the 100 percent gate. -/
def evaluate_compliance_results (i : ComplianceInput) : ComplianceRecord :=
  let checks := [i.gdpr, i.hipaa, i.soc2, i.iso27001]
  let passed_checks := (checks.filter complianceCheckPassed).length
  let total_checks := checks.length
  let pass_rate := if total_checks > 0 then ((passed_checks : ℚ) / total_checks) * 100 else 0
  { compliance_pass_rate := pass_rate
    passed_checks := passed_checks
    total_checks := total_checks
    passed := decide (pass_rate ≥ compliance_pass_rate_gate) }

/- ----------------------------------------------------------------
   Quality evaluator (evaluate_quality_results, lines 117-169).
   ---------------------------------------------------------------- -/

/-- Data read from complexity-report.json: the averageComplexity field
(the code defaults it to 10 when missing). -/
structure ComplexityData where
  averageComplexity : Option ℚ
deriving DecidableEq

/-- Data read from technical-debt.json: the debt_score field (the code
defaults it to 80 when missing). -/
structure DebtData where
  debt_score : Option ℚ
deriving DecidableEq

/-- Outcome of processing one coverage summary file inside the glob loop
(lines 151-160): loading or field extraction raised, or the parsed JSON
has no total key, or total.lines.pct was extracted (none when the pct
field is missing, in which case the code defaults to 85). -/
inductive CoverageParse where
  | failed
  | noTotal
  | total (pct : Option ℚ)
deriving DecidableEq

/-- One file matched by the summary glob: whether its suffix is .json and
its parse outcome (only consulted for .json files). -/
structure CoverageFile where
  isJson : Bool
  parse : CoverageParse
deriving DecidableEq

/-- The coverage loop (lines 148-160): coverage_score starts at 85; files
are visited in glob order; a non-json file breaks the loop immediately, a
json file that fails to load is skipped, and a json file that loads breaks
the loop after possibly assigning total.lines.pct. -/
def coverageLoop : List CoverageFile → ℚ
  | [] => 85
  | f :: rest =>
      if f.isJson then
        match f.parse with
        | .failed => coverageLoop rest
        | .noTotal => 85
        | .total pct => pct.getD 85
      else 85

/-- Quality inputs: the two report files plus the coverage directory
(none when the directory does not exist, otherwise the glob-ordered list
of summary files). -/
structure QualityInput where
  complexity : ReportFile ComplexityData
  debt : ReportFile DebtData
  coverage : Option (List CoverageFile)
deriving DecidableEq

/-- Score term contributed by the complexity report (lines 123-132). -/
def complexityScoreTerm : ReportFile ComplexityData → ℚ
  | .absent => 0
  | .malformed => 70
  | .parsed d => max 0 (100 - (d.averageComplexity.getD 10) * 5)

/-- Score term contributed by the technical-debt report (lines 136-144). -/
def debtScoreTerm : ReportFile DebtData → ℚ
  | .absent => 0
  | .malformed => 70
  | .parsed d => d.debt_score.getD 80

/-- Coverage score (lines 147-160): 85 when the coverage directory is
absent, otherwise the result of the summary-file loop. -/
def coverage_score_of : Option (List CoverageFile) → ℚ
  | none => 85
  | some files => coverageLoop files

/-- Record returned by evaluate_quality_results (lines 164-169). -/
structure QualityRecord where
  quality_score : ℚ
  coverage_score : ℚ
  passed : Bool
deriving DecidableEq

/-- evaluate_quality_results (lines 117-169): sum the complexity and debt
score terms, halve the sum when positive and default to 85 otherwise, and
pass iff the average meets the quality gate and coverage meets the
coverage minimum. -/
def evaluate_quality_results (i : QualityInput) : QualityRecord :=
  let quality_score := complexityScoreTerm i.complexity + debtScoreTerm i.debt
  let coverage_score := coverage_score_of i.coverage
  let avg_quality_score := if quality_score > 0 then quality_score / 2 else 85
  { quality_score := avg_quality_score
    coverage_score := coverage_score
    passed := decide (avg_quality_score ≥ code_quality_score_gate) &&
              decide (coverage_score ≥ test_coverage_minimum) }

/- ----------------------------------------------------------------
   Performance evaluator (evaluate_performance_results, lines 171-209).
   ---------------------------------------------------------------- -/

/-- Data read from performance-baseline.json; each field defaults when
missing (1000 ms, 512 MB, lighthouse 90). -/
structure PerfData where
  avg_response_time : Option ℚ
  peak_memory_mb : Option ℚ
  lighthouse_performance : Option ℚ
deriving DecidableEq

/-- Record returned by evaluate_performance_results: the parsed branch
fills the measurement fields and leaves note empty; the default branch
(file absent or unreadable) leaves the measurements empty and sets the
note. -/
structure PerformanceRecord where
  performance_score : ℚ
  response_time_ms : Option ℚ
  memory_usage_mb : Option ℚ
  lighthouse_score : Option ℚ
  baseline_met : Bool
  passed : Bool
  note : Option String
deriving DecidableEq

/-- evaluate_performance_results (lines 171-209): when the baseline file
exists and every extraction succeeds, average the derived response,
memory, and lighthouse scores and pass iff the average is at least 75;
when the file is absent, or loading or extraction raises, return the
fixed default record (score 80, baseline met, passed). -/
def evaluate_performance_results : ReportFile PerfData → PerformanceRecord
  | .parsed d =>
      let response_time := d.avg_response_time.getD 1000
      let memory_usage := d.peak_memory_mb.getD 512
      let lighthouse_score := d.lighthouse_performance.getD 90
      let response_score := max 0 (100 - response_time / 10)
      let memory_score := max 0 (100 - memory_usage / 10)
      let avg_perf_score := (response_score + memory_score + lighthouse_score) / 3
      let baseline_met := decide (avg_perf_score ≥ 75)
      { performance_score := avg_perf_score
        response_time_ms := some response_time
        memory_usage_mb := some memory_usage
        lighthouse_score := some lighthouse_score
        baseline_met := baseline_met
        passed := baseline_met
        note := none }
  | _ =>
      { performance_score := 80
        response_time_ms := none
        memory_usage_mb := none
        lighthouse_score := none
        baseline_met := true
        passed := true
        note := some "Performance baseline not available, assuming pass" }

/- ----------------------------------------------------------------
   Gate evaluator (evaluate_all_gates, lines 211-254) and the
   evaluate-gates entry point (main, lines 256-287).
   ---------------------------------------------------------------- -/

/-- The evaluation_results record after evaluate_all_gates: the four
category records plus the derived overall status. -/
structure EvaluationResult where
  security : SecurityRecord
  compliance : ComplianceRecord
  quality : QualityRecord
  performance : PerformanceRecord
  overall_status : String
deriving DecidableEq

/-- evaluate_all_gates (lines 211-254): run the four evaluators and set
overall_status to PASSED iff all four passed flags are true, FAILED
otherwise. -/
def evaluate_all_gates (s : SecurityInput) (c : ComplianceInput)
    (q : QualityInput) (p : ReportFile PerfData) : EvaluationResult :=
  let sec := evaluate_security_results s
  let comp := evaluate_compliance_results c
  let qual := evaluate_quality_results q
  let perf := evaluate_performance_results p
  let all_passed := sec.passed && comp.passed && qual.passed && perf.passed
  { security := sec
    compliance := comp
    quality := qual
    performance := perf
    overall_status := if all_passed then "PASSED" else "FAILED" }

/-- One category section of a persisted evaluation file, as the checker
prints it: whether its passed entry is readable by the bare subscript at
lines 30, 34, 38 and 42 (none when the entry is missing or the section is
not an object, so the subscript raises), and whether the score value the
section carries (defaulted to 0 when the field is missing) is accepted by
the numeric one-decimal format at lines 31, 35, 39 and 43 - that format
raises on a string, null, or other non-numeric JSON value. -/
structure SectionData where
  passed : Option Bool
  scoreFormats : Bool
deriving DecidableEq

/-- The parsed contents of a persisted evaluation file as the checker
reads it: the overall_status field (status tokens are modelled as
strings) and the four optional category sections; a file whose top level
is not a JSON object raises at the first field access and is covered by
the malformed case of ReportFile. -/
structure EvalFileData where
  overall_status : Option String
  security : Option SectionData
  compliance : Option SectionData
  quality : Option SectionData
  performance : Option SectionData
deriving DecidableEq

/-- Whether printing one category section completes without raising: an
absent section is skipped, and a present section needs a readable passed
entry and a score value the numeric format accepts. -/
def sectionOk : Option SectionData → Bool
  | none => true
  | some d => d.passed.isSome && d.scoreFormats

/-- Whether the per-category status printing loop of the checker (lines
29-43) completes without raising for this file. -/
def sectionsReadable (d : EvalFileData) : Bool :=
  sectionOk d.security && sectionOk d.compliance &&
  sectionOk d.quality && sectionOk d.performance

/-- check_qa_gate_status (lines 12-51): FAILED when the file is missing;
otherwise parse it; any exception while loading or printing the section
summaries yields FAILED; otherwise return the overall_status field,
defaulting to FAILED when the field is missing. -/
def check_qa_gate_status : ReportFile EvalFileData → String
  | .absent => "FAILED"
  | .malformed => "FAILED"
  | .parsed d =>
      if sectionsReadable d then d.overall_status.getD "FAILED" else "FAILED"

/-- Exit code of the check-gate-status entry point (line 63): 0 iff the
returned status token is PASSED. -/
def check_gate_status_exit (f : ReportFile EvalFileData) : ℕ :=
  if check_qa_gate_status f = "PASSED" then 0 else 1

/- ----------------------------------------------------------------
   Promotion reporter (create_qa_promotion_report.py).
   ---------------------------------------------------------------- -/

/-- The fields of the loaded QA results file that gate promotion. -/
structure QaResultsData where
  overall_status : Option String
deriving DecidableEq

/-- One template file discovered under the source tree: its path relative
to the source root, and whether copying it together with writing its
sidecar metadata succeeds (copy_template_with_metadata, lines 25-63,
catches any per-file failure and reports it as False). -/
structure TemplateFile where
  relPath : String
  copyOk : Bool
deriving DecidableEq

/-- Observable effects and result of one promote_templates run. -/
structure PromotionOutcome where
  success : Bool
  promoted : List String
  sidecars : List String
  summaryWritten : Bool
  total_templates : ℕ
  successfully_promoted : ℕ
deriving DecidableEq

/-- The outcome of an aborted run: failure with no files copied, no
sidecars, and no summary written. -/
def abortedPromotion : PromotionOutcome :=
  { success := false
    promoted := []
    sidecars := []
    summaryWritten := false
    total_templates := 0
    successfully_promoted := 0 }

/-- promote_templates (lines 65-127): abort with failure when the QA
results file fails to load, when its overall_status is not PASSED, or
when no template files are discovered; otherwise copy each discovered
file (tolerating per-file failures), write the promotion summary, and
succeed iff every file was copied. -/
def promote_templates (qaFile : ReportFile QaResultsData)
    (templates : List TemplateFile) : PromotionOutcome :=
  match qaFile with
  | .absent => abortedPromotion
  | .malformed => abortedPromotion
  | .parsed qa =>
      if qa.overall_status ≠ some "PASSED" then abortedPromotion
      else if templates.isEmpty then abortedPromotion
      else
        let ok := templates.filter (fun t => t.copyOk)
        { success := ok.length == templates.length
          promoted := ok.map (fun t => t.relPath)
          sidecars := ok.map (fun t => t.relPath)
          summaryWritten := true
          total_templates := templates.length
          successfully_promoted := ok.length }

/-- Exit code of the promote-templates entry point (lines 184-193): 0 iff
promote_templates returned success. -/
def promote_main_exit (qaFile : ReportFile QaResultsData)
    (templates : List TemplateFile) : ℕ :=
  if (promote_templates qaFile templates).success then 0 else 1

/- ----------------------------------------------------------------
   A notion taken from the specification text, for comparison with the
   implemented security average.
   ---------------------------------------------------------------- -/

/-- Modelled from the spec: the number of security tool reports that
contribute a score term, per the wording "divide by the number of tools
contributing a term" - a tool contributes whenever its report file is
present (a malformed report still contributes the partial score 50). -/
def specContributingToolCount (i : SecurityInput) : ℕ :=
  (match i.bandit with | .absent => 0 | _ => 1) +
  (match i.safety with | .absent => 0 | _ => 1) +
  (match i.semgrep with | .absent => 0 | _ => 1)

/- ----------------------------------------------------------------
   Shared helper lemmas.
   ---------------------------------------------------------------- -/

theorem banditScoreTerm_nonneg : ∀ f, 0 ≤ banditScoreTerm f
  | .absent => le_refl 0
  | .malformed => by norm_num [banditScoreTerm]
  | .parsed _ => le_max_left 0 _

theorem safetyScoreTerm_nonneg : ∀ f, 0 ≤ safetyScoreTerm f
  | .absent => le_refl 0
  | .malformed => by norm_num [safetyScoreTerm]
  | .parsed _ => le_max_left 0 _

theorem semgrepScoreTerm_nonneg : ∀ f, 0 ≤ semgrepScoreTerm f
  | .absent => le_refl 0
  | .malformed => by norm_num [semgrepScoreTerm]
  | .parsed _ => le_max_left 0 _

theorem securityScoreSum_nonneg (i : SecurityInput) : 0 ≤ securityScoreSum i :=
  add_nonneg (add_nonneg (banditScoreTerm_nonneg _) (safetyScoreTerm_nonneg _))
    (semgrepScoreTerm_nonneg _)

/-- The accumulated score is averaged as score/3 in every case: the else
branch of line 80 only fires when the accumulated score is 0, and 0/3 = 0. -/
theorem security_avg_eq_sum_div_three (i : SecurityInput) :
    (evaluate_security_results i).security_score = securityScoreSum i / 3 := by
  show (if securityScoreSum i > 0 then securityScoreSum i / 3 else 0) = securityScoreSum i / 3
  by_cases h : securityScoreSum i > 0
  · rw [if_pos h]
  · have h0 : securityScoreSum i = 0 := le_antisymm (not_lt.mp h) (securityScoreSum_nonneg i)
    rw [if_neg h, h0, zero_div]

/- ----------------------------------------------------------------
   Claim theorems.
   ---------------------------------------------------------------- -/

/-- Claim C1: for every evaluation run, the overall_status produced by
evaluate_all_gates is PASSED if and only if all four category records
have passed = true, and it is FAILED in each of the remaining
combinations of the four passed flags. -/
theorem overall_status_iff_all_passed (s : SecurityInput) (c : ComplianceInput)
    (q : QualityInput) (p : ReportFile PerfData) :
    ((evaluate_all_gates s c q p).overall_status = "PASSED" ↔
      ((evaluate_all_gates s c q p).security.passed = true ∧
       (evaluate_all_gates s c q p).compliance.passed = true ∧
       (evaluate_all_gates s c q p).quality.passed = true ∧
       (evaluate_all_gates s c q p).performance.passed = true)) ∧
    ((evaluate_all_gates s c q p).overall_status = "FAILED" ↔
      ¬((evaluate_all_gates s c q p).security.passed = true ∧
        (evaluate_all_gates s c q p).compliance.passed = true ∧
        (evaluate_all_gates s c q p).quality.passed = true ∧
        (evaluate_all_gates s c q p).performance.passed = true)) := by
  have hne : ("FAILED" : String) ≠ "PASSED" := by decide
  have hne2 : ("PASSED" : String) ≠ "FAILED" := by decide
  cases hs : (evaluate_security_results s).passed <;>
    cases hc : (evaluate_compliance_results c).passed <;>
      cases hq : (evaluate_quality_results q).passed <;>
        cases hp : (evaluate_performance_results p).passed <;>
          simp [evaluate_all_gates, hs, hc, hq, hp, hne, hne2]

/-- Claim C4: the reported security_score always equals the sum of the
per-tool score terms divided by 3, however many of the three tool reports
were present; in particular with a single tool report the divisor is
still 3. -/
theorem security_score_always_div_three (i : SecurityInput) :
    (evaluate_security_results i).security_score = securityScoreSum i / 3 :=
  security_avg_eq_sum_div_three i

/-- Claim C9: a performance baseline file that exists but fails to parse
yields exactly the same record as an absent file: score 80, baseline met,
passed - a malformed baseline can never fail the performance gate. -/
theorem performance_malformed_eq_absent :
    evaluate_performance_results .malformed = evaluate_performance_results .absent ∧
    (evaluate_performance_results .malformed).performance_score = 80 ∧
    (evaluate_performance_results .malformed).baseline_met = true ∧
    (evaluate_performance_results .malformed).passed = true :=
  ⟨rfl, rfl, rfl, rfl⟩

/-- Claim C2: when the QA results file loads and parses but its
overall_status is anything other than PASSED, promote_templates aborts
with failure, copying no files and writing no sidecar or summary, and the
promote-templates entry point exits 1. -/
theorem promote_not_passed_aborts (qa : QaResultsData) (ts : List TemplateFile)
    (h : qa.overall_status ≠ some "PASSED") :
    promote_templates (.parsed qa) ts = abortedPromotion ∧
    (promote_templates (.parsed qa) ts).success = false ∧
    (promote_templates (.parsed qa) ts).promoted = [] ∧
    (promote_templates (.parsed qa) ts).sidecars = [] ∧
    (promote_templates (.parsed qa) ts).summaryWritten = false ∧
    promote_main_exit (.parsed qa) ts = 1 := by
  have he : promote_templates (.parsed qa) ts = abortedPromotion := by
    simp [promote_templates, h]
  refine ⟨he, ?_, ?_, ?_, ?_, ?_⟩ <;> simp [he, abortedPromotion, promote_main_exit]

theorem promote_not_passed_aborts_witness :
    promote_templates (.parsed ⟨some "FAILED"⟩) [⟨"template.md", true⟩] = abortedPromotion ∧
    promote_main_exit (.parsed ⟨some "FAILED"⟩) [⟨"template.md", true⟩] = 1 :=
  ⟨(promote_not_passed_aborts ⟨some "FAILED"⟩ [⟨"template.md", true⟩] (by decide)).1,
   (promote_not_passed_aborts ⟨some "FAILED"⟩ [⟨"template.md", true⟩] (by decide)).2.2.2.2.2⟩

/-- Claim C7: when the loaded evaluation has overall_status PASSED but no
template files are discovered, promote_templates returns failure and the
promote-templates entry point exits 1, not vacuous success. -/
theorem promote_no_templates_fails (qa : QaResultsData)
    (h : qa.overall_status = some "PASSED") :
    (promote_templates (.parsed qa) []).success = false ∧
    promote_main_exit (.parsed qa) [] = 1 := by
  have he : promote_templates (.parsed qa) [] = abortedPromotion := by
    simp [promote_templates, h]
  constructor <;> simp [he, abortedPromotion, promote_main_exit]

theorem promote_no_templates_fails_witness :
    (promote_templates (.parsed ⟨some "PASSED"⟩) []).success = false ∧
    promote_main_exit (.parsed ⟨some "PASSED"⟩) [] = 1 :=
  promote_no_templates_fails ⟨some "PASSED"⟩ rfl

/-- One security input with a single tool report present: Bandit parsed
with no findings, Safety and Semgrep absent. -/
def onlyBanditInput : SecurityInput :=
  { bandit := .parsed ⟨[]⟩, safety := .absent, semgrep := .absent }

/-- Claim C5 counterexample: with only the Bandit report present, one
tool contributes a term and the sum of the per-tool scores is 100, yet
the reported security_score is 100/3, not 100/1: the evaluator does not
divide by the number of contributing tools. -/
theorem security_divisor_counterexample :
    specContributingToolCount onlyBanditInput = 1 ∧
    securityScoreSum onlyBanditInput = 100 ∧
    (evaluate_security_results onlyBanditInput).security_score = 100 / 3 ∧
    (evaluate_security_results onlyBanditInput).security_score ≠
      securityScoreSum onlyBanditInput / (specContributingToolCount onlyBanditInput : ℚ) := by
  refine ⟨rfl, ?_, ?_, ?_⟩
  · norm_num [securityScoreSum, onlyBanditInput, banditScoreTerm, safetyScoreTerm,
      semgrepScoreTerm, countSeverity]
  · norm_num [evaluate_security_results, securityScoreSum, onlyBanditInput, banditScoreTerm,
      safetyScoreTerm, semgrepScoreTerm, countSeverity]
  · norm_num [evaluate_security_results, securityScoreSum, onlyBanditInput, banditScoreTerm,
      safetyScoreTerm, semgrepScoreTerm, countSeverity, specContributingToolCount]

/-- Claim C5 as amended: even when at least one tool report contributes a
score term, the average is the sum of the per-tool scores divided by the
fixed tool count 3, not by the number of contributing tools. -/
theorem security_score_div_three_when_present (i : SecurityInput)
    (h : 1 ≤ specContributingToolCount i) :
    (evaluate_security_results i).security_score = securityScoreSum i / 3 :=
  security_avg_eq_sum_div_three i

theorem security_score_div_three_when_present_witness :
    (evaluate_security_results onlyBanditInput).security_score =
      securityScoreSum onlyBanditInput / 3 :=
  security_score_div_three_when_present onlyBanditInput (by decide)

/-- Claim C8: when all three tool reports exist, parse, and contain zero
findings or vulnerabilities, the security evaluator returns score 100,
vulnerability count 0, and passed. -/
theorem security_zero_findings_perfect (bd : BanditData) (sd : SafetyData) (gd : SemgrepData)
    (hH : countSeverity "HIGH" bd.results = 0)
    (hM : countSeverity "MEDIUM" bd.results = 0)
    (hS : sd.getD 0 = 0)
    (hE : countSeverity "ERROR" gd.results = 0) :
    evaluate_security_results { bandit := .parsed bd, safety := .parsed sd, semgrep := .parsed gd } =
      { security_score := 100, vulnerability_count := 0, passed := true } := by
  have hsum : securityScoreSum
      { bandit := .parsed bd, safety := .parsed sd, semgrep := .parsed gd } = 300 := by
    norm_num [securityScoreSum, banditScoreTerm, safetyScoreTerm, semgrepScoreTerm, hH, hM, hS, hE]
  show SecurityRecord.mk _ _ _ = _
  rw [SecurityRecord.mk.injEq]
  refine ⟨?_, ?_, ?_⟩ <;>
    simp [hsum, banditVulns, safetyVulns, semgrepVulns, hH, hM, hS, hE,
      security_score_threshold, vulnerability_count_limit] <;> norm_num

theorem security_zero_findings_perfect_witness :
    evaluate_security_results
        { bandit := .parsed ⟨[]⟩, safety := .parsed (some 0), semgrep := .parsed ⟨[]⟩ } =
      { security_score := 100, vulnerability_count := 0, passed := true } :=
  security_zero_findings_perfect ⟨[]⟩ (some 0) ⟨[]⟩ rfl rfl rfl rfl

/-- Claim C10: a missing quality report contributes nothing while the
divisor stays 2 - with only the complexity report present, the quality
score is the complexity-derived term halved whenever that term is
positive; the 85 default applies exactly when the total contribution is
0, for instance when both report files are missing. -/
theorem quality_missing_debt_halves (cd : ComplexityData) (cov : Option (List CoverageFile)) :
    (0 < complexityScoreTerm (.parsed cd) →
      (evaluate_quality_results { complexity := .parsed cd, debt := .absent, coverage := cov }).quality_score =
        complexityScoreTerm (.parsed cd) / 2) ∧
    (complexityScoreTerm (.parsed cd) = 0 →
      (evaluate_quality_results { complexity := .parsed cd, debt := .absent, coverage := cov }).quality_score = 85) ∧
    (evaluate_quality_results { complexity := .absent, debt := .absent, coverage := cov }).quality_score = 85 := by
  refine ⟨fun h => ?_, fun h => ?_, ?_⟩
  · show (if complexityScoreTerm (.parsed cd) + debtScoreTerm .absent > 0 then _ else _) = _
    rw [debtScoreTerm, add_zero, if_pos h]
  · show (if complexityScoreTerm (.parsed cd) + debtScoreTerm .absent > 0 then _ else _) = _
    rw [debtScoreTerm, add_zero, h]
    norm_num
  · show (if complexityScoreTerm .absent + debtScoreTerm .absent > 0 then _ else _) = _
    rw [complexityScoreTerm, debtScoreTerm, add_zero]
    norm_num

theorem quality_missing_debt_halves_witness :
    (evaluate_quality_results
        { complexity := .parsed ⟨some 2⟩, debt := .absent, coverage := none }).quality_score = 45 := by
  have h := (quality_missing_debt_halves ⟨some 2⟩ none).1
    (by norm_num [complexityScoreTerm])
  rw [h]
  norm_num [complexityScoreTerm]

/-- A persisted evaluation file whose overall_status is PASSED but whose
security section is present without a readable passed entry. -/
def passedButBadSection : EvalFileData :=
  { overall_status := some "PASSED", security := some { passed := none, scoreFormats := true },
    compliance := none, quality := none, performance := none }

/-- A persisted evaluation file whose overall_status is PASSED and whose
security section has a readable passed entry but a score value the
numeric format rejects, such as a string. -/
def passedButStringScore : EvalFileData :=
  { overall_status := some "PASSED", security := some { passed := some true, scoreFormats := false },
    compliance := none, quality := none, performance := none }

/-- Claim C6 counterexample: two files that exist, parse, and have
overall_status PASSED still make the checker raise while printing and
report FAILED with exit code 1 - one whose security section lacks a
passed entry, and one whose security section carries a non-numeric score
value rejected by the one-decimal format - so exit 0 is not equivalent to
the file parsing with status PASSED. -/
theorem check_gate_passed_field_counterexample :
    passedButBadSection.overall_status = some "PASSED" ∧
    check_qa_gate_status (.parsed passedButBadSection) = "FAILED" ∧
    check_gate_status_exit (.parsed passedButBadSection) = 1 ∧
    passedButStringScore.overall_status = some "PASSED" ∧
    check_qa_gate_status (.parsed passedButStringScore) = "FAILED" ∧
    check_gate_status_exit (.parsed passedButStringScore) = 1 := by
  refine ⟨rfl, rfl, ?_, rfl, rfl, ?_⟩ <;>
    · show (if ("FAILED" : String) = "PASSED" then _ else _) = _
      rw [if_neg (by decide)]

/-- Claim C6 as amended: a missing or unparsable evaluation file is
reported as FAILED, and the checker exits 0 if and only if the file
exists, parses into an object, every category section it contains prints
without raising - a readable passed entry and a score value the numeric
format accepts - and its overall_status field equals PASSED. -/
theorem check_gate_exit_amended :
    check_qa_gate_status .absent = "FAILED" ∧
    check_qa_gate_status .malformed = "FAILED" ∧
    (∀ f : ReportFile EvalFileData,
      check_gate_status_exit f = 0 ↔
        ∃ d, f = .parsed d ∧ sectionsReadable d = true ∧
          d.overall_status = some "PASSED") := by
  have hne : ("FAILED" : String) ≠ "PASSED" := by decide
  refine ⟨rfl, rfl, fun f => ?_⟩
  cases f with
  | absent => simp [check_gate_status_exit, check_qa_gate_status, hne]
  | malformed => simp [check_gate_status_exit, check_qa_gate_status, hne]
  | parsed d =>
      by_cases hr : sectionsReadable d
      · cases ho : d.overall_status with
        | none => simp [check_gate_status_exit, check_qa_gate_status, hr, ho, hne]
        | some st =>
            by_cases hst : st = "PASSED" <;>
              simp [check_gate_status_exit, check_qa_gate_status, hr, ho, hst, hne]
      · simp [check_gate_status_exit, check_qa_gate_status, hr, hne]

end QAGates
